import Mathlib

/-
Verification of the cssfdlp job-lifecycle controller.

Shallow embedding of:
  - site/src/routes/api/stream/store.ts            (ScriptStore)
  - site/src/routes/api/stream/+server.ts          (DELETE, startScriptExecution, GET)
  - site/src/routes/api/stream/status/+server.ts   (GET status)
  - site/src/routes/api/stream/log/+server.ts      (GET log)
  - site/src/routes/api/stream/reset/+server.ts    (POST reset)
  - site/src/lib/auth.ts                           (verifyToken, extractToken)
  - the client-side log normalizer (cleanAnsiAndExtractType and the
    onmessage line processing in the page component)

JavaScript string primitives (trim, split, startsWith, includes,
toUpperCase, toLowerCase, substring, join) are modelled by structurally
recursive functions over the character list of the string, so that every
definition evaluates inside the kernel.
-/

namespace Cssfdlp

/-! ## JavaScript string primitives -/

/-- JS `String.prototype.trim`. -/
def jsTrim (s : String) : String :=
  String.mk (((s.data.dropWhile Char.isWhitespace).reverse.dropWhile
    Char.isWhitespace).reverse)

/-- Helper for `jsSplitNl`: accumulate the current line (reversed). -/
def jsSplitNlAux : List Char → List Char → List String
  | [], acc => [String.mk acc.reverse]
  | c :: cs, acc =>
      if c = '\n' then String.mk acc.reverse :: jsSplitNlAux cs []
      else jsSplitNlAux cs (c :: acc)

/-- JS `s.split('\n')`. -/
def jsSplitNl (s : String) : List String :=
  jsSplitNlAux s.data []

/-- JS `s.startsWith(pat)`. -/
def jsStartsWith (s pat : String) : Bool :=
  List.isPrefixOf pat.data s.data

/-- Helper for `jsIncludes`: search for `pat` at every suffix. -/
def jsIncludesAux (pat : List Char) : List Char → Bool
  | [] => pat.isEmpty
  | c :: cs => List.isPrefixOf pat (c :: cs) || jsIncludesAux pat cs

/-- JS `s.includes(pat)`. -/
def jsIncludes (s pat : String) : Bool :=
  jsIncludesAux pat.data s.data

/-- JS `s.toUpperCase()` (ASCII, which is all the code feeds it). -/
def jsToUpper (s : String) : String :=
  String.mk (s.data.map Char.toUpper)

/-- JS `s.toLowerCase()` (ASCII). -/
def jsToLower (s : String) : String :=
  String.mk (s.data.map Char.toLower)

/-- JS `s.substring(n)` for ASCII strings: drop the first `n` characters. -/
def jsDrop (s : String) (n : Nat) : String :=
  String.mk (s.data.drop n)

/-- JS `arr.join(' ')`. -/
def joinSpace : List String → String
  | [] => ""
  | [x] => x
  | x :: y :: xs => x ++ " " ++ joinSpace (y :: xs)

/-! ## Data model: log records, subscribers, the script store

From site/src/routes/api/stream/store.ts. -/

/-- One record of the log buffer: `{ message, type }`. -/
structure LogEntry where
  message : String
  type : String
deriving Repr, DecidableEq

/-- A stream subscriber as the store sees it: the wrapper's `active` flag,
whether the underlying `ReadableStreamDefaultController` has been closed
(in which case `enqueue` throws), and the records whose frames have been
enqueued to it so far, in order. -/
structure StreamController where
  active : Bool
  closed : Bool
  sent : List LogEntry
deriving Repr, DecidableEq

/-- Model of `controller.enqueue(frame)`: fails (`none`) when the controller is
closed, otherwise delivers the record. -/
def StreamController.enqueue (c : StreamController) (e : LogEntry) :
    Option StreamController :=
  if c.closed then none else some { c with sent := c.sent ++ [e] }

/-- Model of an enqueue wrapped in try/catch with the error swallowed. -/
def StreamController.enqueueSwallow (c : StreamController) (e : LogEntry) :
    StreamController :=
  (c.enqueue e).getD c

/-- The singleton `ScriptStore` state: running flag, ordered log buffer,
subscriber list and subprocess handle. -/
structure ScriptStore where
  isRunning : Bool
  log : List LogEntry
  controllers : List StreamController
  scriptProcess : Option Nat
deriving Repr, DecidableEq

/-- The state the store is constructed in at process start. -/
def initialStore : ScriptStore :=
  { isRunning := false, log := [], controllers := [], scriptProcess := none }

/-- Model of `ScriptStore.clearLog`. -/
def ScriptStore.clearLog (s : ScriptStore) : ScriptStore :=
  { s with log := [] }

/-- Model of `ScriptStore.setScriptProcess`. -/
def ScriptStore.setScriptProcess (s : ScriptStore) (p : Option Nat) :
    ScriptStore :=
  { s with scriptProcess := p }

/-- Model of `ScriptStore.addToLog(message, type)`: append the trimmed record, then
push its frame to every active controller, dropping inactive controllers
and controllers whose enqueue throws. -/
def ScriptStore.addToLog (s : ScriptStore) (message type : String) :
    ScriptStore :=
  let entry : LogEntry := { message := jsTrim message, type := type }
  { s with
    log := s.log ++ [entry]
    controllers := s.controllers.filterMap fun c =>
      if c.active then c.enqueue entry else none }

/-- Model of `ScriptStore.reset`: clear log, flag and handle; controllers are
deliberately left attached. -/
def ScriptStore.reset (s : ScriptStore) : ScriptStore :=
  { s with log := [], isRunning := false, scriptProcess := none }

/-- Model of `ScriptStore.setRunning(running)`, also returning the list of
controllers as they stand after being closed (the code closes each one
and then drops the list).  On `running = true` there is no side effect. -/
def ScriptStore.setRunningAux (s : ScriptStore) (running : Bool) :
    ScriptStore × List StreamController :=
  let s1 := { s with isRunning := running }
  if running then (s1, [])
  else
    let s2 := s1.addToLog "Script execution completed" "complete"
    let s3 := { s2 with scriptProcess := none }
    let closedCs := s3.controllers.map fun c => { c with closed := true }
    ({ s3 with controllers := [] }, closedCs)

/-- Model of `ScriptStore.setRunning(running)` (state part). -/
def ScriptStore.setRunning (s : ScriptStore) (running : Bool) : ScriptStore :=
  (s.setRunningAux running).1

/-- Model of `ScriptStore.killProcess`: only acts when a subprocess handle exists. -/
def ScriptStore.killProcess (s : ScriptStore) : ScriptStore :=
  match s.scriptProcess with
  | some _ => ({ s with scriptProcess := none }).setRunning false
  | none => s

/-- Model of `ScriptStore.addController(controller)`: register the controller with
`active: true`, then replay the whole existing buffer to it, one frame per
record, swallowing enqueue errors. -/
def ScriptStore.addController (s : ScriptStore) (c0 : StreamController) :
    ScriptStore :=
  let c := s.log.foldl StreamController.enqueueSwallow { c0 with active := true }
  { s with controllers := s.controllers ++ [c] }

/-! ## Auth gate

From site/src/lib/auth.ts.  `jwt.verify` of the external jsonwebtoken
library is modelled as an abstract verifier that either succeeds or
throws (returns an error). -/

/-- Model of `verifyToken(token)`: `jwt.verify` inside try/catch, any throw maps
to `false`. -/
def verifyToken (jwtVerify : String → Except String Unit) (token : String) :
    Bool :=
  match jwtVerify token with
  | .ok _ => true
  | .error _ => false

/-- Model of `extractToken(authHeader)`. -/
def extractToken (authHeader : Option String) : Option String :=
  match authHeader with
  | none => none
  | some h => if jsStartsWith h "Bearer " then some (jsDrop h 7) else none

/-- JS truthiness test `!token` for `string | null`. -/
def tokenFalsy : Option String → Bool
  | none => true
  | some t => t = ""

/-- The auth condition shared verbatim by every endpoint:
`!token || !verifyToken(token)` over the header-extracted token. -/
def authFails (jwtVerify : String → Except String Unit)
    (authHeader : Option String) : Bool :=
  let token := extractToken authHeader
  tokenFalsy token || !verifyToken jwtVerify (token.getD "")

/-! ## Endpoint responses -/

/-- The JSON bodies the stream endpoints build. -/
inductive Body where
  | errorMsg (error : String)
  | message (message : String)
  | successMsg (success : Bool) (message : String)
  | statusBody (isRunning : Bool) (log : List LogEntry)
  | logBody (log : List LogEntry)
  | stream
deriving Repr, DecidableEq

/-- An HTTP response: status code plus body. -/
structure Response where
  status : Nat
  body : Body
deriving Repr, DecidableEq

/-- The common 401 response. -/
def unauthorized : Response :=
  { status := 401, body := Body.errorMsg "Unauthorized" }

/-- Model of `DELETE /api/stream` (cancel). -/
def deleteEndpoint (jwtVerify : String → Except String Unit)
    (authHeader : Option String) (s : ScriptStore) : ScriptStore × Response :=
  if authFails jwtVerify authHeader then (s, unauthorized)
  else if s.scriptProcess.isSome then
    (s.killProcess, { status := 200, body := Body.message "Script execution cancelled" })
  else
    (s, { status := 200, body := Body.message "No script running" })

/-- Model of `POST /api/stream/reset`. -/
def resetEndpoint (jwtVerify : String → Except String Unit)
    (authHeader : Option String) (s : ScriptStore) : ScriptStore × Response :=
  if authFails jwtVerify authHeader then (s, unauthorized)
  else if s.isRunning then
    (s, { status := 400,
          body := Body.successMsg false "Cannot reset while script is running" })
  else
    (s.reset, { status := 200,
                body := Body.successMsg true "Script state has been reset" })

/-- Model of `GET /api/stream/status`. -/
def statusEndpoint (jwtVerify : String → Except String Unit)
    (authHeader : Option String) (s : ScriptStore) : ScriptStore × Response :=
  if authFails jwtVerify authHeader then (s, unauthorized)
  else (s, { status := 200, body := Body.statusBody s.isRunning s.log })

/-- Model of `GET /api/stream/log`. -/
def logEndpoint (jwtVerify : String → Except String Unit)
    (authHeader : Option String) (s : ScriptStore) : ScriptStore × Response :=
  if authFails jwtVerify authHeader then (s, unauthorized)
  else (s, { status := 200, body := Body.logBody s.log })

/-- The stream `GET`'s token lookup: header first, query parameter when
the header token is absent or falsy. -/
def streamAuthToken (authHeader queryToken : Option String) : Option String :=
  let t := extractToken authHeader
  if tokenFalsy t then queryToken else t

/-- The auth condition of the stream `GET`. -/
def streamAuthFails (jwtVerify : String → Except String Unit)
    (authHeader queryToken : Option String) : Bool :=
  let token := streamAuthToken authHeader queryToken
  tokenFalsy token || !verifyToken jwtVerify (token.getD "")

/-- Model of `GET /api/stream`: the auth gate followed by the rest of the handler,
which is abstracted as a continuation `k` (parameter parsing, the
default-server log line and the SSE stream setup). -/
def streamGET (jwtVerify : String → Except String Unit)
    (authHeader queryToken : Option String) (s : ScriptStore)
    (k : ScriptStore → ScriptStore × Response) : ScriptStore × Response :=
  if streamAuthFails jwtVerify authHeader queryToken then (s, unauthorized)
  else k s

/-! ## Job runner pipeline

From `startScriptExecution` in site/src/routes/api/stream/+server.ts.
The outside world a run interacts with (filesystem stat of the venv,
the three spawned subprocesses with their interleaved stdout/stderr
chunks and exit codes, and the platform-dependent paths) is described by
a `PipelineEnv`; the pipeline itself is a pure function of the store
state, the start options and that environment. -/

/-- One chunk of subprocess output, on stdout or stderr. -/
inductive OutEvent where
  | out (chunk : String)
  | err (chunk : String)
deriving Repr, DecidableEq

/-- One subprocess as observed by the pipeline: its output chunks in
arrival order and the exit code its `close` event reports (`none` models
Node's `null` code for a signal-killed process). -/
structure ProcRun where
  events : List OutEvent
  exitCode : Option Int
deriving Repr, DecidableEq

/-- The environment of one run. -/
structure PipelineEnv where
  venvExists : Bool
  statErrENOENT : Bool
  statErrMsg : String
  venvRun : ProcRun
  pipRun : ProcRun
  streamsOk : Bool
  scriptRun : ProcRun
  systemPython : String
  pythonVenvPath : String
  pipVenvPath : String
  requirementsPath : String
  scriptPath : String
  scriptPid : Nat
deriving Repr, DecidableEq

/-- The options object handed to `startScriptExecution`; the call site
builds every field from a query parameter with `|| ''`, so absence is the
empty string (JS falsy). -/
structure StartOptions where
  useRemoteZip : Bool
  remoteHost : String
  remoteUser : String
  remotePassword : String
  remotePath : String
  remoteZipUrl : String
deriving Repr, DecidableEq

/-- Template rendering of a Node `close` code (`null` prints as "null"). -/
def codeStr : Option Int → String
  | none => "null"
  | some n => toString n

/-- A spawned command: executable and argument list. -/
abbrev SpawnCall := String × List String

/-- Result of a pipeline (or pipeline step): final store state, the
message of the error it threw (if any), and the spawns it performed. -/
structure StepOut where
  state : ScriptStore
  thrown : Option String
  spawns : List SpawnCall

/-- venv-creation output handlers (`'setup'` for both channels, stderr
prefixed with `ERROR: `). -/
def venvDataStep (s : ScriptStore) (e : OutEvent) : ScriptStore :=
  match e with
  | .out d => s.addToLog d "setup"
  | .err d => s.addToLog ("ERROR: " ++ d) "setup"

/-- Step 1: check or create the virtual environment. -/
def step1 (env : PipelineEnv) (s : ScriptStore) : StepOut :=
  if env.venvExists then
    { state := s.addToLog "Virtual environment found" "setup",
      thrown := none, spawns := [] }
  else if env.statErrENOENT then
    let s := s.addToLog "Creating virtual environment..." "setup"
    let s := env.venvRun.events.foldl venvDataStep s
    if env.venvRun.exitCode = some 0 then
      { state := s.addToLog "Virtual environment created successfully" "setup",
        thrown := none,
        spawns := [(env.systemPython, ["-m", "venv", ".venv"])] }
    else
      let msg := "Failed to create virtual environment (exit code: "
        ++ codeStr env.venvRun.exitCode ++ ")"
      { state := s.addToLog msg "error", thrown := some msg,
        spawns := [(env.systemPython, ["-m", "venv", ".venv"])] }
  else
    { state := s,
      thrown := some ("Failed to check virtual environment: " ++ env.statErrMsg),
      spawns := [] }

/-- pip stdout noise filter (keep condition). -/
def pipStdoutKeep (t : String) : Bool :=
  t ≠ "" && !jsIncludes t "Requirement already satisfied"
    && !jsIncludes t "pip install --upgrade pip"
    && !jsIncludes t "notice]"
    && !jsStartsWith t "Using cached"
    && !jsIncludes t "Installing collected packages"

/-- pip stderr noise filter (keep condition). -/
def pipStderrKeep (t : String) : Bool :=
  t ≠ "" && !jsIncludes t "A new release of pip is available"
    && !jsIncludes t "To update, run:"
    && !jsIncludes t "notice]"

/-- pip output handlers: split each chunk into lines, trim, filter noise,
log survivors as `'setup'` records. -/
def pipDataStep (s : ScriptStore) (e : OutEvent) : ScriptStore :=
  match e with
  | .out d => (jsSplitNl d).foldl (fun s line =>
      let t := jsTrim line
      if pipStdoutKeep t then s.addToLog t "setup" else s) s
  | .err d => (jsSplitNl d).foldl (fun s line =>
      let t := jsTrim line
      if pipStderrKeep t then s.addToLog ("ERROR: " ++ t) "setup" else s) s

/-- Step 2: install dependencies. -/
def step2 (env : PipelineEnv) (s : ScriptStore) : StepOut :=
  let s := s.addToLog "Installing dependencies..." "setup"
  let s := env.pipRun.events.foldl pipDataStep s
  if env.pipRun.exitCode = some 0 then
    { state := s.addToLog "Dependencies installed successfully" "setup",
      thrown := none,
      spawns := [(env.pipVenvPath, ["install", "-r", env.requirementsPath])] }
  else
    let msg := "Failed to install dependencies (exit code: "
      ++ codeStr env.pipRun.exitCode ++ ")"
    { state := s.addToLog msg "error", thrown := some msg,
      spawns := [(env.pipVenvPath, ["install", "-r", env.requirementsPath])] }

/-- Argument construction of step 3 (lines 170-190 of the handler). -/
def buildArgs (scriptPath : String) (o : StartOptions) : List String :=
  let args := ["-u", scriptPath]
  if o.useRemoteZip then
    if o.remoteZipUrl ≠ "" then args ++ ["--remote-zip-url", o.remoteZipUrl]
    else
      args ++ ["--create-remote-zip"]
        ++ (if o.remoteHost ≠ "" then ["--remote-host", o.remoteHost] else [])
        ++ (if o.remoteUser ≠ "" then ["--remote-user", o.remoteUser] else [])
        ++ (if o.remotePassword ≠ "" then
              ["--remote-password", o.remotePassword] else [])
        ++ (if o.remotePath ≠ "" then ["--remote-path", o.remotePath] else [])
  else args ++ ["./cstrike.zip"]

/-- The mode log line emitted while the arguments are built. -/
def step3ModeLog (o : StartOptions) (s : ScriptStore) : ScriptStore :=
  if o.useRemoteZip then
    if o.remoteZipUrl ≠ "" then
      s.addToLog ("Using remote zip URL: " ++ o.remoteZipUrl) "setup"
    else
      s.addToLog ("Creating zip on remote server: " ++ o.remoteHost) "setup"
  else s.addToLog "Using local zip file (if available)" "setup"

/-- The password redaction applied to the logged command line:
`indexOf('--remote-password')`, then replace the following element. -/
def redactArgs (args : List String) : List String :=
  let pwIndex := args.findIdx (fun a => a = "--remote-password")
  if pwIndex + 1 < args.length then args.set (pwIndex + 1) "****" else args

/-- Main-script output handlers: stdout chunks are `'output'` records,
stderr chunks are `ERROR: `-prefixed `'error'` records. -/
def scriptDataStep (s : ScriptStore) (e : OutEvent) : ScriptStore :=
  match e with
  | .out d => s.addToLog d "output"
  | .err d => s.addToLog ("ERROR: " ++ d) "error"

/-- The `scriptProcess.on('close')` handler: exit code zero logs the
success record (type `'complete'`), any other code (including Node's
`null` for a signal-killed process) logs a failure record (type
`'error'`); either way the run ends through `setRunning(false)`.  This
handler stays registered on the subprocess, so it also fires after a
cancellation kills the process. -/
def closeHandler (code : Option Int) (s : ScriptStore) : ScriptStore :=
  (if code = some 0 then
      s.addToLog "Script execution completed successfully" "complete"
    else
      s.addToLog ("Script execution failed with code " ++ codeStr code) "error"
    ).setRunning false

/-- Step 3: announce, build and log the command line, spawn the script,
stream its output, and on `close` log the outcome and end the run. -/
def step3 (o : StartOptions) (env : PipelineEnv) (s : ScriptStore) : StepOut :=
  let s := s.addToLog "Starting script execution..." "execute"
  let args := buildArgs env.scriptPath o
  let s := step3ModeLog o s
  let logArgs := redactArgs args
  let s := s.addToLog
    ("Executing: " ++ env.pythonVenvPath ++ " " ++ joinSpace logArgs) "setup"
  let s := s.setScriptProcess (some env.scriptPid)
  if !env.streamsOk then
    { state := s, thrown := some "Failed to create script process streams",
      spawns := [(env.pythonVenvPath, args)] }
  else
    let s := env.scriptRun.events.foldl scriptDataStep s
    { state := closeHandler env.scriptRun.exitCode s, thrown := none,
      spawns := [(env.pythonVenvPath, args)] }

/-- The catch block of `startScriptExecution`: log the error, end the run
through `setRunning(false)`, rethrow. -/
def catchStep (s : ScriptStore) (msg : String) : ScriptStore :=
  (s.addToLog ("Error: " ++ msg) "error").setRunning false

/-- The body of the try block: the three steps in sequence, each throw
short-circuiting into the catch block. -/
def pipelineSteps (o : StartOptions) (env : PipelineEnv) (s : ScriptStore) :
    StepOut :=
  let r1 := step1 env s
  match r1.thrown with
  | some m => { state := catchStep r1.state m, thrown := some m, spawns := r1.spawns }
  | none =>
    let r2 := step2 env r1.state
    match r2.thrown with
    | some m =>
        { state := catchStep r2.state m, thrown := some m,
          spawns := r1.spawns ++ r2.spawns }
    | none =>
      let r3 := step3 o env r2.state
      match r3.thrown with
      | some m =>
          { state := catchStep r3.state m, thrown := some m,
            spawns := r1.spawns ++ r2.spawns ++ r3.spawns }
      | none =>
          { state := r3.state, thrown := none,
            spawns := r1.spawns ++ r2.spawns ++ r3.spawns }

/-- Model of `startScriptExecution(options)` as a whole, run to its terminal
outcome: the already-running guard (which throws before the try block and
so bypasses the catch), then clear the buffer, raise the flag, and run
the pipeline. -/
def runPipeline (s : ScriptStore) (o : StartOptions) (env : PipelineEnv) :
    StepOut :=
  if s.isRunning then
    { state := s, thrown := some "Script is already running", spawns := [] }
  else pipelineSteps o env ((s.clearLog).setRunning true)

/-- The `start` callback of the stream `GET`'s `ReadableStream`: register
the new controller (replaying the buffer to it), then start the pipeline
only when no run is active; a throw from the pipeline is caught and
logged as an `'error'` record. -/
def streamStart (s : ScriptStore) (c0 : StreamController) (o : StartOptions)
    (env : PipelineEnv) : ScriptStore × List SpawnCall :=
  let s1 := s.addController c0
  if s1.isRunning then (s1, [])
  else
    let r := runPipeline s1 o env
    match r.thrown with
    | some m => (r.state.addToLog ("Error: " ++ m) "error", r.spawns)
    | none => (r.state, r.spawns)

/-- Number of `'complete'`-typed records in the buffer. -/
def countComplete (s : ScriptStore) : Nat :=
  (s.log.filter fun e => e.type = "complete").length

/-! ## Log normalizer

From the `onmessage` handler of the page component: ANSI stripping, tag
extraction, tag remapping, timestamping and line splitting.  The wall
clock is a parameter `ts` (the `HH:MM:SS` string `addTimestamp` would
render). -/

/-- One position of the regex replace `/\x1b\[[0-9;]*m/g`: at an escape
introducer, drop digits and semicolons and require a final `m`; on a
match the sequence is removed, otherwise the character is kept and
scanning resumes one position later.  Every step consumes at least one
character, so structural recursion on a fuel of the list's length is
exact. -/
def stripAnsiAux : Nat → List Char → List Char
  | 0, l => l
  | _ + 1, [] => []
  | fuel + 1, '\x1b' :: '[' :: cs2 =>
    (match cs2.dropWhile (fun d => d.isDigit || d = ';') with
     | 'm' :: rest => stripAnsiAux fuel rest
     | _ => '\x1b' :: stripAnsiAux fuel ('[' :: cs2))
  | fuel + 1, c :: cs => c :: stripAnsiAux fuel cs

/-- Model of the replace of the escape-code regex by the empty string. -/
def stripAnsi (s : String) : String :=
  String.mk (stripAnsiAux s.data.length s.data)

/-- The tag match `/^\[([A-Z]+)\]\s*/`: on success, the lower-cased tag
and the message with the whole prefix (including trailing whitespace)
removed. -/
def extractTag (s : String) : Option (String × String) :=
  match s.data with
  | '[' :: cs =>
    let tag := cs.takeWhile fun c => 'A' ≤ c && c ≤ 'Z'
    if tag.isEmpty then none
    else
      match cs.dropWhile (fun c => 'A' ≤ c && c ≤ 'Z') with
      | ']' :: rest =>
          some (String.mk (tag.map Char.toLower),
                String.mk (rest.dropWhile Char.isWhitespace))
      | _ => none
  | _ => none

/-- Model of `cleanAnsiAndExtractType(rawMessage)`: strip ANSI codes, then detect
and strip the leading bracketed uppercase tag. -/
def cleanAnsiAndExtractType (rawMessage : String) :
    String × Option String :=
  let clean := stripAnsi rawMessage
  match extractTag clean with
  | some (tag, rest) => (rest, some tag)
  | none => (clean, none)

/-- The `switch (data.type)` preamble that fixes `logType` before line
processing. -/
def logTypeOf (dataType : String) : String :=
  if dataType = "setup" then "setup"
  else if dataType = "execute" then "execute"
  else if dataType = "output" then "output"
  else if dataType = "error" then "error"
  else if dataType = "complete" then "complete"
  else "default"

/-- The extracted-tag remapping table (`switch (extractedType)`). -/
def mapExtractedType (t : String) : String :=
  if t = "execute" then "execute"
  else if t = "setup" then "setup"
  else if t = "config" then "info"
  else if t = "progress" then "info"
  else if t = "success" then "setup"
  else if t = "error" then "error"
  else if t = "warning" then "error"
  else "info"

/-- A displayed log line: formatted text and final category. -/
structure NormLine where
  text : String
  type : String
deriving Repr, DecidableEq

/-- Model of `addTimestamp(message)` with the clock string as parameter. -/
def addTimestampWith (ts message : String) : String :=
  "[" ++ ts ++ "] " ++ message

/-- Processing of one line of a message: blank lines yield nothing;
otherwise clean, reconcile the extracted tag against the declared type
(tag wins), and format the text (declared tag re-prepended for non-output
declared types, extracted tag re-prepended for output-declared lines that
carried one). -/
def processLine (ts dataType logType msg : String) : Option NormLine :=
  if jsTrim msg = "" then none
  else
    let r := cleanAnsiAndExtractType msg
    let cleanMessage := r.1
    let finalType :=
      match r.2 with
      | some t => mapExtractedType t
      | none => logType
    let finalMessage :=
      if dataType ≠ "" && dataType ≠ "output" then
        addTimestampWith ts ("[" ++ jsToUpper dataType ++ "] " ++ cleanMessage)
      else
        match r.2 with
        | some t => addTimestampWith ts ("[" ++ jsToUpper t ++ "] " ++ cleanMessage)
        | none => addTimestampWith ts cleanMessage
    some { text := finalMessage, type := finalType }

/-- Model of `normalize`: split the raw chunk on line breaks and process each
line, dropping blank ones. -/
def processMessage (ts dataType raw : String) : List NormLine :=
  (jsSplitNl raw).filterMap (processLine ts dataType (logTypeOf dataType))

/-! ## Concrete fixtures used by witnesses and counterexamples -/

/-- An environment for a clean run: venv present, quiet pip, all exit
codes zero. -/
def quietEnv : PipelineEnv :=
  { venvExists := true, statErrENOENT := false, statErrMsg := ""
    venvRun := { events := [], exitCode := some 0 }
    pipRun := { events := [], exitCode := some 0 }
    streamsOk := true
    scriptRun := { events := [], exitCode := some 0 }
    systemPython := "python3", pythonVenvPath := "python3"
    pipVenvPath := "pip", requirementsPath := "requirements.txt"
    scriptPath := "cssfdlp.py", scriptPid := 1 }

/-- Default local-zip options. -/
def localOpts : StartOptions :=
  { useRemoteZip := false, remoteHost := "", remoteUser := ""
    remotePassword := "", remotePath := "", remoteZipUrl := "" }

/-- Remote options whose host value is the literal redaction marker flag,
defeating the `indexOf`-based redaction. -/
def leakOpts : StartOptions :=
  { useRemoteZip := true, remoteHost := "--remote-password"
    remoteUser := "u", remotePassword := "secret", remotePath := ""
    remoteZipUrl := "" }

/-- An environment whose main execution fails with exit code 2. -/
def failEnv : PipelineEnv :=
  { venvExists := true, statErrENOENT := false, statErrMsg := ""
    venvRun := { events := [], exitCode := some 0 }
    pipRun := { events := [], exitCode := some 0 }
    streamsOk := true
    scriptRun := { events := [OutEvent.err "boom"], exitCode := some 2 }
    systemPython := "python3", pythonVenvPath := "python3"
    pipVenvPath := "pip", requirementsPath := "requirements.txt"
    scriptPath := "cssfdlp.py", scriptPid := 1 }

/-- Ordinary remote options. -/
def remoteOpts : StartOptions :=
  { useRemoteZip := true, remoteHost := "h", remoteUser := "u"
    remotePassword := "pw", remotePath := "/srv", remoteZipUrl := "" }

/-- A store mid-run with a live subprocess and one subscriber. -/
def runningStore : ScriptStore :=
  { isRunning := true
    log := [{ message := "chunk", type := "output" }]
    controllers := [{ active := true, closed := false, sent := [] }]
    scriptProcess := some 7 }

/-- A store mid-run before the subprocess handle exists (environment
preparation or dependency installation still in progress). -/
def hungStore : ScriptStore :=
  { isRunning := true
    log := [{ message := "Installing dependencies...", type := "setup" }]
    controllers := [], scriptProcess := none }

/-- An idle store with two buffered records. -/
def idleStore : ScriptStore :=
  { isRunning := false
    log := [{ message := "a", type := "setup" }, { message := "b", type := "output" }]
    controllers := [{ active := true, closed := false, sent := [] }]
    scriptProcess := some 3 }

/-- A freshly connected subscriber. -/
def freshController : StreamController :=
  { active := true, closed := false, sent := [] }

/-- A verifier that accepts every token. -/
def jvOk : String → Except String Unit := fun _ => Except.ok ()

/-- A verifier that rejects every token (malformed / unsigned / expired /
tampered). -/
def jvBad : String → Except String Unit := fun _ => Except.error "invalid token"

/-- A well-formed Authorization header. -/
def bearerHeader : Option String := some "Bearer token123"

/-- A stand-in for the body of the stream handler past the auth gate. -/
def kStream : ScriptStore → ScriptStore × Response :=
  fun s => (s, { status := 200, body := Body.stream })

/-! ## Helper lemmas about the store operations -/

theorem addToLog_log (s : ScriptStore) (m t : String) :
    (s.addToLog m t).log = s.log ++ [{ message := jsTrim m, type := t }] := rfl

theorem addToLog_isRunning (s : ScriptStore) (m t : String) :
    (s.addToLog m t).isRunning = s.isRunning := rfl

theorem addToLog_scriptProcess (s : ScriptStore) (m t : String) :
    (s.addToLog m t).scriptProcess = s.scriptProcess := rfl

theorem mem_addToLog (s : ScriptStore) (m t : String) {e : LogEntry}
    (h : e ∈ s.log) : e ∈ (s.addToLog m t).log := by
  rw [addToLog_log]
  exact List.mem_append_left _ h

theorem countComplete_addToLog (s : ScriptStore) (m t : String) :
    countComplete (s.addToLog m t) =
      countComplete s + (if t = "complete" then 1 else 0) := by
  simp only [countComplete, addToLog_log, List.filter_append, List.length_append]
  by_cases h : t = "complete" <;> simp [h, List.filter]

theorem setRunning_true_spec (s : ScriptStore) :
    s.setRunning true = { s with isRunning := true } := rfl

theorem jsTrim_completed : jsTrim "Script execution completed" = "Script execution completed" := by
  decide

theorem setRunning_false_spec (s : ScriptStore) :
    s.setRunning false =
      { isRunning := false
        log := s.log ++ [{ message := "Script execution completed", type := "complete" }]
        controllers := []
        scriptProcess := none } := by
  simp [ScriptStore.setRunning, ScriptStore.setRunningAux, ScriptStore.addToLog,
    jsTrim_completed]

theorem setRunningAux_false_closed (s : ScriptStore) :
    ∀ c ∈ (s.setRunningAux false).2, c.closed = true := by
  intro c hc
  simp only [ScriptStore.setRunningAux, if_neg Bool.false_ne_true, List.mem_map] at hc
  obtain ⟨c0, -, rfl⟩ := hc
  rfl

theorem countComplete_setRunning_false (s : ScriptStore) :
    countComplete (s.setRunning false) = countComplete s + 1 := by
  simp [setRunning_false_spec, countComplete, List.filter_append, List.filter]

theorem mem_setRunning_false (s : ScriptStore) {e : LogEntry} (h : e ∈ s.log) :
    e ∈ (s.setRunning false).log := by
  rw [setRunning_false_spec]
  exact List.mem_append_left _ h

theorem getLast_setRunning_false (s : ScriptStore) :
    ((s.setRunning false).log.getLast?).map LogEntry.type = some "complete" := by
  rw [setRunning_false_spec]
  simp [List.getLast?_concat]

theorem catchStep_isRunning (s : ScriptStore) (m : String) :
    (catchStep s m).isRunning = false := by
  simp [catchStep, setRunning_false_spec]

theorem mem_catchStep (s : ScriptStore) (m : String) :
    { message := jsTrim ("Error: " ++ m), type := "error" } ∈ (catchStep s m).log := by
  unfold catchStep
  exact mem_setRunning_false _ (by rw [addToLog_log]; exact List.mem_append_right _ (by simp))

theorem countComplete_catchStep (s : ScriptStore) (m : String) :
    countComplete (catchStep s m) = countComplete s + 1 := by
  simp [catchStep, countComplete_setRunning_false, countComplete_addToLog]

theorem getLast_catchStep (s : ScriptStore) (m : String) :
    ((catchStep s m).log.getLast?).map LogEntry.type = some "complete" := by
  unfold catchStep
  exact getLast_setRunning_false _

theorem foldl_invariant {α β : Type} (proj : ScriptStore → β)
    (f : ScriptStore → α → ScriptStore)
    (hf : ∀ s a, proj (f s a) = proj s) :
    ∀ (l : List α) (s : ScriptStore), proj (l.foldl f s) = proj s := by
  intro l
  induction l with
  | nil => intro s; rfl
  | cons a l ih => intro s; rw [List.foldl_cons, ih, hf]

theorem foldl_log_mem {α : Type} (f : ScriptStore → α → ScriptStore)
    (hf : ∀ s a (e : LogEntry), e ∈ s.log → e ∈ (f s a).log) :
    ∀ (l : List α) (s : ScriptStore) (e : LogEntry),
      e ∈ s.log → e ∈ (l.foldl f s).log := by
  intro l
  induction l with
  | nil => intro s e h; exact h
  | cons a l ih => intro s e h; exact ih _ _ (hf _ _ _ h)

/-! ## Claim theorems -/

/-- C1: whenever the running flag transitions from true to false by any
path (`setRunning(false)` directly, or cancellation via
`killProcess -> setRunning(false)`), afterwards the subscriber set is
empty, every controller registered at that moment has been closed, the
subprocess handle is cleared, and the last record of the buffer has type
`complete`. -/
theorem terminal_closure (s : ScriptStore) :
    ((s.setRunningAux false).1.controllers = [] ∧
      (s.setRunningAux false).1.scriptProcess = none ∧
      (((s.setRunningAux false).1.log.getLast?).map LogEntry.type = some "complete") ∧
      (∀ c ∈ (s.setRunningAux false).2, c.closed = true)) ∧
    (s.scriptProcess.isSome = true →
      s.killProcess.controllers = [] ∧
      s.killProcess.scriptProcess = none ∧
      ((s.killProcess.log.getLast?).map LogEntry.type = some "complete")) := by
  constructor
  · refine ⟨?_, ?_, ?_, setRunningAux_false_closed s⟩
    · have h := setRunning_false_spec s
      simp only [ScriptStore.setRunning] at h
      rw [h]
    · have h := setRunning_false_spec s
      simp only [ScriptStore.setRunning] at h
      rw [h]
    · have h := getLast_setRunning_false s
      simpa only [ScriptStore.setRunning] using h
  · intro hproc
    match hp : s.scriptProcess with
    | none => rw [hp] at hproc; simp at hproc
    | some pid =>
        unfold ScriptStore.killProcess
        rw [hp]
        refine ⟨?_, ?_, getLast_setRunning_false _⟩
        · rw [setRunning_false_spec]
        · rw [setRunning_false_spec]

/-- C1 witness: closing a concrete mid-run store. -/
theorem terminal_closure_witness :
    runningStore.killProcess.controllers = [] ∧
    runningStore.killProcess.scriptProcess = none ∧
    ((runningStore.killProcess.log.getLast?).map LogEntry.type = some "complete") :=
  (terminal_closure runningStore).2 (by decide)

/-- C4: an authenticated reset while running leaves the store unchanged
and reports failure (HTTP 400, `success: false`); while idle it empties
the buffer and clears the handle while leaving the subscriber set
untouched. -/
theorem reset_guard (jwtVerify : String → Except String Unit)
    (authHeader : Option String) (s : ScriptStore)
    (hauth : authFails jwtVerify authHeader = false) :
    (s.isRunning = true →
      resetEndpoint jwtVerify authHeader s =
        (s, { status := 400,
              body := Body.successMsg false "Cannot reset while script is running" })) ∧
    (s.isRunning = false →
      resetEndpoint jwtVerify authHeader s =
        ({ isRunning := false, log := [], controllers := s.controllers,
           scriptProcess := none },
         { status := 200,
           body := Body.successMsg true "Script state has been reset" })) := by
  constructor
  · intro hr
    simp [resetEndpoint, hauth, hr]
  · intro hr
    simp [resetEndpoint, hauth, hr, ScriptStore.reset]

/-- C4 witness: reset refused on a running store, applied on an idle one. -/
theorem reset_guard_witness :
    (resetEndpoint jvOk bearerHeader runningStore =
      (runningStore,
       { status := 400,
         body := Body.successMsg false "Cannot reset while script is running" })) ∧
    (resetEndpoint jvOk bearerHeader idleStore =
      ({ isRunning := false, log := [], controllers := idleStore.controllers,
         scriptProcess := none },
       { status := 200,
         body := Body.successMsg true "Script state has been reset" })) :=
  ⟨(reset_guard jvOk bearerHeader runningStore (by decide)).1 (by decide),
   (reset_guard jvOk bearerHeader idleStore (by decide)).2 (by decide)⟩

/-- C9: the verifier wrapper maps every throwing verification to `false`
and only a successful verification to `true`; and every authenticated
endpoint, presented with a missing or invalid credential, returns the 401
response and leaves the job state untouched. -/
theorem auth_gate (jwtVerify : String → Except String Unit)
    (authHeader queryToken : Option String) (s : ScriptStore)
    (k : ScriptStore → ScriptStore × Response) :
    (∀ t e, jwtVerify t = Except.error e → verifyToken jwtVerify t = false) ∧
    (∀ t, verifyToken jwtVerify t = true ↔ jwtVerify t = Except.ok ()) ∧
    (authFails jwtVerify authHeader = true →
      deleteEndpoint jwtVerify authHeader s = (s, unauthorized) ∧
      resetEndpoint jwtVerify authHeader s = (s, unauthorized) ∧
      statusEndpoint jwtVerify authHeader s = (s, unauthorized) ∧
      logEndpoint jwtVerify authHeader s = (s, unauthorized)) ∧
    (streamAuthFails jwtVerify authHeader queryToken = true →
      streamGET jwtVerify authHeader queryToken s k = (s, unauthorized)) := by
  refine ⟨?_, ?_, ?_, ?_⟩
  · intro t e h
    simp [verifyToken, h]
  · intro t
    unfold verifyToken
    match h : jwtVerify t with
    | .ok u => simp
    | .error e => simp
  · intro hfail
    refine ⟨?_, ?_, ?_, ?_⟩ <;>
      simp [deleteEndpoint, resetEndpoint, statusEndpoint, logEndpoint, hfail]
  · intro hfail
    simp [streamGET, hfail]

/-- C9 witness: a rejecting verifier yields 401 on the cancel endpoint and
the stream endpoint, state untouched. -/
theorem auth_gate_witness :
    (deleteEndpoint jvBad none runningStore = (runningStore, unauthorized)) ∧
    (streamGET jvBad none none runningStore kStream = (runningStore, unauthorized)) :=
  ⟨((auth_gate jvBad none none runningStore kStream).2.2.1 (by decide)).1,
   (auth_gate jvBad none none runningStore kStream).2.2.2 (by decide)⟩

/-- C10: cancellation is decided by the subprocess handle, not the
running flag: with a null handle the authenticated DELETE answers
"No script running" and changes nothing (even when `running` is true),
and `killProcess` is the identity. -/
theorem cancel_requires_handle (jwtVerify : String → Except String Unit)
    (authHeader : Option String) (s : ScriptStore)
    (hauth : authFails jwtVerify authHeader = false)
    (hproc : s.scriptProcess = none) :
    deleteEndpoint jwtVerify authHeader s =
      (s, { status := 200, body := Body.message "No script running" }) ∧
    s.killProcess = s := by
  constructor
  · simp [deleteEndpoint, hauth, hproc]
  · unfold ScriptStore.killProcess
    rw [hproc]

/-- C10 witness: a run in its preparation phase (running, no handle yet)
is not cancellable. -/
theorem cancel_requires_handle_witness :
    hungStore.isRunning = true ∧
    (deleteEndpoint jvOk bearerHeader hungStore =
      (hungStore, { status := 200, body := Body.message "No script running" })) ∧
    hungStore.killProcess = hungStore :=
  ⟨by decide,
   (cancel_requires_handle jvOk bearerHeader hungStore (by decide) (by decide)).1,
   (cancel_requires_handle jvOk bearerHeader hungStore (by decide) (by decide)).2⟩

theorem addController_isRunning (s : ScriptStore) (c0 : StreamController) :
    (s.addController c0).isRunning = s.isRunning := rfl

/-- C2: while a run is active, `startScriptExecution` throws
"Script is already running" without touching the state or spawning, and
the stream handler's start callback only registers the subscriber; while
idle, it clears the buffer, raises the flag, and hands that state to the
pipeline. -/
theorem single_flight (s : ScriptStore) (o : StartOptions) (env : PipelineEnv)
    (c0 : StreamController) :
    (s.isRunning = true →
      runPipeline s o env =
        { state := s, thrown := some "Script is already running", spawns := [] } ∧
      streamStart s c0 o env = (s.addController c0, [])) ∧
    (s.isRunning = false →
      (s.clearLog).setRunning true = { s with log := [], isRunning := true } ∧
      runPipeline s o env =
        pipelineSteps o env { s with log := [], isRunning := true }) := by
  constructor
  · intro hr
    refine ⟨by simp [runPipeline, hr], ?_⟩
    have h1 : (s.addController c0).isRunning = true := by
      rw [addController_isRunning]; exact hr
    simp [streamStart, h1]
  · intro hr
    have h1 : (s.clearLog).setRunning true = { s with log := [], isRunning := true } := by
      rw [setRunning_true_spec]
      rfl
    exact ⟨h1, by simp [runPipeline, hr, h1]⟩

/-- C2 witness: a second start during a run is a stateless no-op; a start
from idle runs the pipeline on the cleared state. -/
theorem single_flight_witness :
    (runPipeline runningStore localOpts quietEnv =
      { state := runningStore, thrown := some "Script is already running",
        spawns := [] }) ∧
    (runPipeline initialStore localOpts quietEnv =
      pipelineSteps localOpts quietEnv
        { initialStore with log := [], isRunning := true }) :=
  ⟨((single_flight runningStore localOpts quietEnv freshController).1 (by decide)).1,
   ((single_flight initialStore localOpts quietEnv freshController).2 (by decide)).2⟩

theorem foldl_enqueueSwallow_open (l : List LogEntry) :
    ∀ c : StreamController, c.closed = false →
      l.foldl StreamController.enqueueSwallow c =
        { c with sent := c.sent ++ l } := by
  induction l with
  | nil => intro c hc; simp
  | cons e l ih =>
      intro c hc
      rw [List.foldl_cons]
      have h1 : StreamController.enqueueSwallow c e =
          { c with sent := c.sent ++ [e] } := by
        simp [StreamController.enqueueSwallow, StreamController.enqueue, hc]
      rw [h1, ih _ (by simp [hc])]
      simp

/-- C3: a subscriber connecting while the buffer holds the records of
`s.log` is replayed all of them, one frame per record, in order; a record
appended after its registration reaches it only afterwards. -/
theorem replay_completeness (s : ScriptStore) (c0 : StreamController)
    (hclosed : c0.closed = false) (hsent : c0.sent = []) (m t : String) :
    (s.addController c0).controllers.getLast? =
      some { active := true, closed := false, sent := s.log } ∧
    ((s.addController c0).addToLog m t).controllers.getLast? =
      some { active := true, closed := false,
             sent := s.log ++ [{ message := jsTrim m, type := t }] } := by
  have hc : s.log.foldl StreamController.enqueueSwallow { c0 with active := true } =
      { active := true, closed := false, sent := s.log } := by
    rw [foldl_enqueueSwallow_open s.log { c0 with active := true } (by simp [hclosed])]
    simp [hclosed, hsent]
  constructor
  · unfold ScriptStore.addController
    rw [hc]
    exact List.getLast?_concat _
  · show ((s.addController c0).addToLog m t).controllers.getLast? = _
    unfold ScriptStore.addController ScriptStore.addToLog
    rw [hc]
    simp only [List.filterMap_append]
    rw [List.getLast?_append_of_ne_nil]
    · simp [StreamController.enqueue]
    · simp [StreamController.enqueue]

/-- C3 witness: replay of a two-record buffer to a fresh subscriber,
followed by one live record. -/
theorem replay_completeness_witness :
    (idleStore.addController freshController).controllers.getLast? =
      some { active := true, closed := false, sent := idleStore.log } ∧
    ((idleStore.addController freshController).addToLog "live" "output").controllers.getLast? =
      some { active := true, closed := false,
             sent := idleStore.log ++ [{ message := jsTrim "live", type := "output" }] } :=
  replay_completeness idleStore freshController (by decide) (by decide) "live" "output"

theorem venvDataStep_isRunning (s : ScriptStore) (e : OutEvent) :
    (venvDataStep s e).isRunning = s.isRunning := by
  cases e <;> rfl

theorem venvDataStep_countComplete (s : ScriptStore) (e : OutEvent) :
    countComplete (venvDataStep s e) = countComplete s := by
  cases e <;> simp [venvDataStep, countComplete_addToLog]

theorem foldl_venv_isRunning (l : List OutEvent) (s : ScriptStore) :
    (l.foldl venvDataStep s).isRunning = s.isRunning :=
  foldl_invariant ScriptStore.isRunning venvDataStep venvDataStep_isRunning l s

theorem foldl_venv_countComplete (l : List OutEvent) (s : ScriptStore) :
    countComplete (l.foldl venvDataStep s) = countComplete s :=
  foldl_invariant countComplete venvDataStep venvDataStep_countComplete l s

theorem pipDataStep_isRunning (s : ScriptStore) (e : OutEvent) :
    (pipDataStep s e).isRunning = s.isRunning := by
  cases e with
  | out d =>
      exact foldl_invariant ScriptStore.isRunning _
        (by intro s a; dsimp only; split <;> simp [addToLog_isRunning]) _ s
  | err d =>
      exact foldl_invariant ScriptStore.isRunning _
        (by intro s a; dsimp only; split <;> simp [addToLog_isRunning]) _ s

theorem pipDataStep_countComplete (s : ScriptStore) (e : OutEvent) :
    countComplete (pipDataStep s e) = countComplete s := by
  cases e with
  | out d =>
      exact foldl_invariant countComplete _
        (by intro s a; dsimp only; split <;> simp [countComplete_addToLog]) _ s
  | err d =>
      exact foldl_invariant countComplete _
        (by intro s a; dsimp only; split <;> simp [countComplete_addToLog]) _ s

theorem foldl_pip_isRunning (l : List OutEvent) (s : ScriptStore) :
    (l.foldl pipDataStep s).isRunning = s.isRunning :=
  foldl_invariant ScriptStore.isRunning pipDataStep pipDataStep_isRunning l s

theorem foldl_pip_countComplete (l : List OutEvent) (s : ScriptStore) :
    countComplete (l.foldl pipDataStep s) = countComplete s :=
  foldl_invariant countComplete pipDataStep pipDataStep_countComplete l s

theorem scriptDataStep_isRunning (s : ScriptStore) (e : OutEvent) :
    (scriptDataStep s e).isRunning = s.isRunning := by
  cases e <;> rfl

theorem scriptDataStep_countComplete (s : ScriptStore) (e : OutEvent) :
    countComplete (scriptDataStep s e) = countComplete s := by
  cases e <;> simp [scriptDataStep, countComplete_addToLog]

theorem foldl_script_isRunning (l : List OutEvent) (s : ScriptStore) :
    (l.foldl scriptDataStep s).isRunning = s.isRunning :=
  foldl_invariant ScriptStore.isRunning scriptDataStep scriptDataStep_isRunning l s

theorem foldl_script_countComplete (l : List OutEvent) (s : ScriptStore) :
    countComplete (l.foldl scriptDataStep s) = countComplete s :=
  foldl_invariant countComplete scriptDataStep scriptDataStep_countComplete l s

theorem step1_countComplete (env : PipelineEnv) (s : ScriptStore) :
    countComplete (step1 env s).state = countComplete s := by
  unfold step1
  cases hv : env.venvExists <;> simp [countComplete_addToLog]
  cases he : env.statErrENOENT <;> simp [countComplete_addToLog]
  by_cases hx : env.venvRun.exitCode = some 0 <;>
    simp [hx, countComplete_addToLog, foldl_venv_countComplete]

theorem step2_countComplete (env : PipelineEnv) (s : ScriptStore) :
    countComplete (step2 env s).state = countComplete s := by
  unfold step2
  by_cases hx : env.pipRun.exitCode = some 0 <;>
    simp [hx, countComplete_addToLog, foldl_pip_countComplete]

theorem step3ModeLog_countComplete (o : StartOptions) (s : ScriptStore) :
    countComplete (step3ModeLog o s) = countComplete s := by
  unfold step3ModeLog
  cases hz : o.useRemoteZip <;> simp [countComplete_addToLog]
  by_cases hu : o.remoteZipUrl = "" <;> simp [hu, countComplete_addToLog]

theorem countComplete_setScriptProcess (s : ScriptStore) (p : Option Nat) :
    countComplete (s.setScriptProcess p) = countComplete s := rfl

theorem step3_spec_ok (o : StartOptions) (env : PipelineEnv) (s : ScriptStore)
    (hs : env.streamsOk = true) :
    (step3 o env s).thrown = none ∧
    (step3 o env s).state.isRunning = false ∧
    ((step3 o env s).state.log.getLast?).map LogEntry.type = some "complete" ∧
    countComplete (step3 o env s).state =
      countComplete s + (if env.scriptRun.exitCode = some 0 then 2 else 1) ∧
    (env.scriptRun.exitCode ≠ some 0 →
      { message := jsTrim ("Script execution failed with code "
          ++ codeStr env.scriptRun.exitCode), type := "error" }
        ∈ (step3 o env s).state.log) := by
  unfold step3 closeHandler
  simp only [hs, Bool.not_true, Bool.false_eq_true, if_false]
  by_cases hx : env.scriptRun.exitCode = some 0
  · refine ⟨trivial, ?_, ?_, ?_, ?_⟩
    · simp [hx, setRunning_false_spec]
    · simp only [hx, if_true]
      exact getLast_setRunning_false _
    · simp [hx, countComplete_setRunning_false, countComplete_addToLog,
        foldl_script_countComplete, countComplete_setScriptProcess,
        step3ModeLog_countComplete]
    · intro hne; exact absurd hx hne
  · refine ⟨trivial, ?_, ?_, ?_, ?_⟩
    · simp [hx, setRunning_false_spec]
    · simp only [hx, if_false]
      exact getLast_setRunning_false _
    · simp [hx, countComplete_setRunning_false, countComplete_addToLog,
        foldl_script_countComplete, countComplete_setScriptProcess,
        step3ModeLog_countComplete]
    · intro _
      simp only [hx, if_false]
      exact mem_setRunning_false _
        (by rw [addToLog_log]; exact List.mem_append_right _ (by simp))

theorem step3_spec_bad (o : StartOptions) (env : PipelineEnv) (s : ScriptStore)
    (hs : env.streamsOk = false) :
    (step3 o env s).thrown = some "Failed to create script process streams" ∧
    countComplete (step3 o env s).state = countComplete s := by
  unfold step3 closeHandler
  simp only [hs, Bool.not_false, if_true]
  exact ⟨trivial, by
    simp [countComplete_addToLog, countComplete_setScriptProcess,
      step3ModeLog_countComplete]⟩

theorem pipelineSteps_eq_catch1 (o : StartOptions) (env : PipelineEnv)
    (s : ScriptStore) (m : String) (h1 : (step1 env s).thrown = some m) :
    pipelineSteps o env s =
      { state := catchStep (step1 env s).state m, thrown := some m,
        spawns := (step1 env s).spawns } := by
  simp only [pipelineSteps]
  rw [h1]

theorem pipelineSteps_eq_catch2 (o : StartOptions) (env : PipelineEnv)
    (s : ScriptStore) (m : String) (h1 : (step1 env s).thrown = none)
    (h2 : (step2 env (step1 env s).state).thrown = some m) :
    pipelineSteps o env s =
      { state := catchStep (step2 env (step1 env s).state).state m,
        thrown := some m,
        spawns := (step1 env s).spawns ++ (step2 env (step1 env s).state).spawns } := by
  simp only [pipelineSteps]
  rw [h1, h2]

theorem pipelineSteps_eq_catch3 (o : StartOptions) (env : PipelineEnv)
    (s : ScriptStore) (m : String) (h1 : (step1 env s).thrown = none)
    (h2 : (step2 env (step1 env s).state).thrown = none)
    (h3 : (step3 o env (step2 env (step1 env s).state).state).thrown = some m) :
    pipelineSteps o env s =
      { state := catchStep (step3 o env (step2 env (step1 env s).state).state).state m,
        thrown := some m,
        spawns := (step1 env s).spawns ++ (step2 env (step1 env s).state).spawns
          ++ (step3 o env (step2 env (step1 env s).state).state).spawns } := by
  simp only [pipelineSteps]
  rw [h1, h2, h3]

theorem pipelineSteps_eq_done (o : StartOptions) (env : PipelineEnv)
    (s : ScriptStore) (h1 : (step1 env s).thrown = none)
    (h2 : (step2 env (step1 env s).state).thrown = none)
    (h3 : (step3 o env (step2 env (step1 env s).state).state).thrown = none) :
    pipelineSteps o env s =
      { state := (step3 o env (step2 env (step1 env s).state).state).state,
        thrown := none,
        spawns := (step1 env s).spawns ++ (step2 env (step1 env s).state).spawns
          ++ (step3 o env (step2 env (step1 env s).state).state).spawns } := by
  simp only [pipelineSteps]
  rw [h1, h2, h3]

theorem pipelineSteps_spec (o : StartOptions) (env : PipelineEnv) (s : ScriptStore) :
    (pipelineSteps o env s).state.isRunning = false ∧
    ((pipelineSteps o env s).state.log.getLast?).map LogEntry.type = some "complete" ∧
    countComplete (pipelineSteps o env s).state =
      countComplete s +
        (if (pipelineSteps o env s).thrown = none ∧ env.scriptRun.exitCode = some 0
         then 2 else 1) ∧
    (∀ m, (pipelineSteps o env s).thrown = some m →
      { message := jsTrim ("Error: " ++ m), type := "error" }
        ∈ (pipelineSteps o env s).state.log) ∧
    ((pipelineSteps o env s).thrown = none → env.scriptRun.exitCode ≠ some 0 →
      { message := jsTrim ("Script execution failed with code "
          ++ codeStr env.scriptRun.exitCode), type := "error" }
        ∈ (pipelineSteps o env s).state.log) := by
  cases h1 : (step1 env s).thrown with
  | some m =>
      rw [pipelineSteps_eq_catch1 o env s m h1]
      refine ⟨catchStep_isRunning _ _, getLast_catchStep _ _, ?_, ?_, ?_⟩
      · rw [countComplete_catchStep, step1_countComplete]
        simp
      · intro m' hm'
        cases hm'
        exact mem_catchStep _ _
      · intro hnone
        exact absurd hnone (by simp)
  | none =>
    cases h2 : (step2 env (step1 env s).state).thrown with
    | some m =>
        rw [pipelineSteps_eq_catch2 o env s m h1 h2]
        refine ⟨catchStep_isRunning _ _, getLast_catchStep _ _, ?_, ?_, ?_⟩
        · rw [countComplete_catchStep, step2_countComplete, step1_countComplete]
          simp
        · intro m' hm'
          cases hm'
          exact mem_catchStep _ _
        · intro hnone
          exact absurd hnone (by simp)
    | none =>
      cases hs : env.streamsOk with
      | false =>
          obtain ⟨h3, hcc3⟩ := step3_spec_bad o env (step2 env (step1 env s).state).state hs
          rw [pipelineSteps_eq_catch3 o env s _ h1 h2 h3]
          refine ⟨catchStep_isRunning _ _, getLast_catchStep _ _, ?_, ?_, ?_⟩
          · rw [countComplete_catchStep, hcc3, step2_countComplete, step1_countComplete]
            simp
          · intro m' hm'
            cases hm'
            exact mem_catchStep _ _
          · intro hnone
            exact absurd hnone (by simp)
      | true =>
          obtain ⟨h3, hrun, hlast, hcc3, hfail⟩ :=
            step3_spec_ok o env (step2 env (step1 env s).state).state hs
          rw [pipelineSteps_eq_done o env s h1 h2 h3]
          refine ⟨hrun, hlast, ?_, ?_, ?_⟩
          · rw [hcc3, step2_countComplete, step1_countComplete]
            simp
          · intro m' hm'
            exact absurd hm' (by simp)
          · intro _ hne
            exact hfail hne

theorem countComplete_start (s : ScriptStore) :
    countComplete ((s.clearLog).setRunning true) = 0 := rfl

theorem runPipeline_eq_of_idle (s : ScriptStore) (o : StartOptions)
    (env : PipelineEnv) (hrun : s.isRunning = false) :
    runPipeline s o env = pipelineSteps o env ((s.clearLog).setRunning true) := by
  simp [runPipeline, hrun]

/-- C5: once a run has started, every pipeline failure (a throwing step,
or a non-zero exit of the main execution) is caught, appends an
`'error'`-typed record, and still reaches `setRunning(false)`: no outcome
leaves `running = true`. -/
theorem pipeline_failure_containment (s : ScriptStore) (o : StartOptions)
    (env : PipelineEnv) (hrun : s.isRunning = false) :
    (runPipeline s o env).state.isRunning = false ∧
    (∀ m, (runPipeline s o env).thrown = some m →
      { message := jsTrim ("Error: " ++ m), type := "error" }
        ∈ (runPipeline s o env).state.log) ∧
    ((runPipeline s o env).thrown = none → env.scriptRun.exitCode ≠ some 0 →
      { message := jsTrim ("Script execution failed with code "
          ++ codeStr env.scriptRun.exitCode), type := "error" }
        ∈ (runPipeline s o env).state.log) := by
  rw [runPipeline_eq_of_idle s o env hrun]
  obtain ⟨ha, -, -, hd, he⟩ := pipelineSteps_spec o env ((s.clearLog).setRunning true)
  exact ⟨ha, hd, he⟩

/-- C5 witness: a failing main execution on a concrete environment still
ends with `running = false` and an `'error'` record. -/
theorem pipeline_failure_containment_witness :
    (runPipeline initialStore localOpts failEnv).state.isRunning = false ∧
    { message := jsTrim ("Script execution failed with code "
        ++ codeStr failEnv.scriptRun.exitCode), type := "error" }
      ∈ (runPipeline initialStore localOpts failEnv).state.log :=
  ⟨(pipeline_failure_containment initialStore localOpts failEnv (by decide)).1,
   (pipeline_failure_containment initialStore localOpts failEnv (by decide)).2.2
     (by decide) (by decide)⟩

/-- C6 counterexample: a clean run (all exit codes zero) ends with TWO
`'complete'`-typed records in the buffer — the close handler's success
record and the terminal record appended by `setRunning(false)` — so "the
buffer ends with exactly one complete-typed record" is false on the
success path. -/
theorem duplicate_complete_counterexample :
    (runPipeline initialStore localOpts quietEnv).thrown = none ∧
    quietEnv.scriptRun.exitCode = some 0 ∧
    countComplete (runPipeline initialStore localOpts quietEnv).state = 2 ∧
    countComplete (runPipeline initialStore localOpts quietEnv).state ≠ 1 := by
  decide

/-- C6 amended: every terminal outcome leaves the buffer ending in a
`'complete'`-typed record, but not always exactly one: a run whose
pipeline throws, and a run whose main execution exits non-zero, append
exactly one `'complete'` record; a successful main execution appends two
(the close handler's success record and the terminal record of
`setRunning(false)`); and a cancellation also settles with two more
`'complete'` records than the buffer held before the cancel — one from
`killProcess`'s `setRunning(false)` and one from the killed process's
still-registered close handler, which fires with a null code, logs the
failure record, and reaches `setRunning(false)` again. -/
theorem terminal_complete_count (s : ScriptStore) (o : StartOptions)
    (env : PipelineEnv) (hrun : s.isRunning = false) :
    (((runPipeline s o env).state.log.getLast?).map LogEntry.type = some "complete" ∧
     countComplete (runPipeline s o env).state =
       (if (runPipeline s o env).thrown = none ∧ env.scriptRun.exitCode = some 0
        then 2 else 1)) ∧
    (∀ s2 : ScriptStore, s2.scriptProcess.isSome = true →
      ((closeHandler none s2.killProcess).log.getLast?).map LogEntry.type =
        some "complete" ∧
      countComplete (closeHandler none s2.killProcess) = countComplete s2 + 2) := by
  constructor
  · rw [runPipeline_eq_of_idle s o env hrun]
    obtain ⟨-, hb, hc, -, -⟩ := pipelineSteps_spec o env ((s.clearLog).setRunning true)
    rw [countComplete_start] at hc
    exact ⟨hb, by rw [hc]; simp⟩
  · intro s2 hps
    obtain ⟨pid, hp⟩ := Option.isSome_iff_exists.1 hps
    have hkill : s2.killProcess =
        ({ s2 with scriptProcess := none } : ScriptStore).setRunning false := by
      unfold ScriptStore.killProcess
      rw [hp]
    constructor
    · unfold closeHandler
      rw [if_neg (by simp)]
      exact getLast_setRunning_false _
    · unfold closeHandler
      rw [if_neg (by simp)]
      rw [countComplete_setRunning_false, countComplete_addToLog, hkill,
        countComplete_setRunning_false]
      have hrec : countComplete { s2 with scriptProcess := none } = countComplete s2 :=
        rfl
      rw [hrec]
      simp

/-- C6 amended witness: a failing run ends with exactly one complete
record, and a cancelled run (live handle, then the close event with a
null code) settles with two more complete records. -/
theorem terminal_complete_count_witness :
    (((runPipeline initialStore localOpts failEnv).state.log.getLast?).map
        LogEntry.type = some "complete" ∧
     countComplete (runPipeline initialStore localOpts failEnv).state =
       (if (runPipeline initialStore localOpts failEnv).thrown = none ∧
           failEnv.scriptRun.exitCode = some 0 then 2 else 1)) ∧
    (((closeHandler none runningStore.killProcess).log.getLast?).map
        LogEntry.type = some "complete" ∧
     countComplete (closeHandler none runningStore.killProcess) =
       countComplete runningStore + 2) :=
  ⟨(terminal_complete_count initialStore localOpts failEnv (by decide)).1,
   (terminal_complete_count initialStore localOpts failEnv (by decide)).2
     runningStore (by decide)⟩

/-- C7 counterexample: the scenario chunk normalizes to category `info`,
but its displayed text re-prepends the stripped `[CONFIG]` tag after the
timestamp — it is not the bare `using cache` the claim states. -/
theorem normalizer_scenario_counterexample :
    processMessage "12:00:00" "output" "\x1b[33m[CONFIG] using cache\x1b[0m" =
      [{ text := "[12:00:00] [CONFIG] using cache", type := "info" }] ∧
    processMessage "12:00:00" "output" "\x1b[33m[CONFIG] using cache\x1b[0m" ≠
      [{ text := "[12:00:00] using cache", type := "info" }] := by
  decide

/-- C7 amended: normalizing the scenario chunk with declared type
`output` yields exactly one line of category `info` (ANSI codes stripped,
tag mapped config→info with the embedded tag winning over the declared
type) whose text is `using cache` prefixed by the timestamp AND the
re-prepended uppercase `[CONFIG]` tag. -/
theorem normalizer_scenario (ts : String) :
    processMessage ts "output" "\x1b[33m[CONFIG] using cache\x1b[0m" =
      [{ text := addTimestampWith ts "[CONFIG] using cache", type := "info" }] := by
  have h1 : jsSplitNl "\x1b[33m[CONFIG] using cache\x1b[0m" =
      ["\x1b[33m[CONFIG] using cache\x1b[0m"] := by decide
  have h2 : cleanAnsiAndExtractType "\x1b[33m[CONFIG] using cache\x1b[0m" =
      ("using cache", some "config") := by decide
  have h3 : ¬(jsTrim "\x1b[33m[CONFIG] using cache\x1b[0m" = "") := by decide
  have h4 : (("output" : String) ≠ "" && ("output" : String) ≠ "output") = false := by
    decide
  have h5 : mapExtractedType "config" = "info" := by decide
  have h6 : ("[" ++ jsToUpper "config" ++ "] " ++ "using cache" : String) =
      "[CONFIG] using cache" := by decide
  simp only [processMessage, h1, List.filterMap_cons, List.filterMap_nil,
    processLine, h2, h3, if_false, h4, h5, h6]
  simp [h3, h4, h5, h6]

theorem findIdx_flag (L rest : List String) (hL : "--remote-password" ∉ L) :
    (L ++ "--remote-password" :: rest).findIdx
      (fun a => a = "--remote-password") = L.length := by
  induction L with
  | nil => simp [List.findIdx_cons]
  | cons a L ih =>
      have ha : ¬(a = "--remote-password") := by
        intro h
        exact hL (h ▸ List.mem_cons_self a L)
      rw [List.cons_append, List.findIdx_cons]
      have hd : (decide (a = "--remote-password")) = false := decide_eq_false ha
      rw [hd]
      simp only [cond_false]
      rw [ih (fun h => hL (List.mem_cons_of_mem _ h))]
      simp

theorem redactArgs_append (L R : List String) (pw : String)
    (hL : "--remote-password" ∉ L) :
    redactArgs (L ++ "--remote-password" :: pw :: R) =
      L ++ "--remote-password" :: "****" :: R := by
  unfold redactArgs
  rw [findIdx_flag L (pw :: R) hL]
  rw [if_pos (by simp)]
  rw [List.set_append_right _ _ (by omega)]
  congr 1
  have h1 : L.length + 1 - L.length = 1 := by omega
  rw [h1, List.set_cons_succ, List.set_cons_zero]

theorem buildArgs_remote (sp : String) (o : StartOptions)
    (hz : o.useRemoteZip = true) (hzu : o.remoteZipUrl = "")
    (hpw : o.remotePassword ≠ "") :
    buildArgs sp o =
      (["-u", sp, "--create-remote-zip"]
        ++ (if o.remoteHost ≠ "" then ["--remote-host", o.remoteHost] else [])
        ++ (if o.remoteUser ≠ "" then ["--remote-user", o.remoteUser] else []))
      ++ "--remote-password" :: o.remotePassword ::
        (if o.remotePath ≠ "" then ["--remote-path", o.remotePath] else []) := by
  simp [buildArgs, hz, hzu, hpw]

theorem step1_thrown_none (env : PipelineEnv) (s : ScriptStore)
    (hok : env.venvExists = true ∨
      (env.statErrENOENT = true ∧ env.venvRun.exitCode = some 0)) :
    (step1 env s).thrown = none := by
  unfold step1
  cases hv : env.venvExists with
  | true => simp
  | false =>
      rcases hok with h | ⟨he, hx⟩
      · exact absurd h (by simp [hv])
      · simp [he, hx]

theorem step2_thrown_none (env : PipelineEnv) (s : ScriptStore)
    (hx : env.pipRun.exitCode = some 0) :
    (step2 env s).thrown = none := by
  unfold step2
  simp [hx]

theorem step3_spawns (o : StartOptions) (env : PipelineEnv) (s : ScriptStore) :
    (step3 o env s).spawns = [(env.pythonVenvPath, buildArgs env.scriptPath o)] := by
  unfold step3 closeHandler
  by_cases hs : env.streamsOk = true <;> simp [hs]

theorem scriptDataStep_log_mem (s : ScriptStore) (a : OutEvent) (e : LogEntry)
    (h : e ∈ s.log) : e ∈ (scriptDataStep s a).log := by
  cases a <;> exact mem_addToLog _ _ _ h

theorem mem_catchStep_mono (s : ScriptStore) (m : String) (e : LogEntry)
    (h : e ∈ s.log) : e ∈ (catchStep s m).log :=
  mem_setRunning_false _ (mem_addToLog _ _ _ h)

theorem step3_exec_mem (o : StartOptions) (env : PipelineEnv) (s : ScriptStore) :
    { message := jsTrim ("Executing: " ++ env.pythonVenvPath ++ " "
        ++ joinSpace (redactArgs (buildArgs env.scriptPath o))), type := "setup" }
      ∈ (step3 o env s).state.log := by
  unfold step3 closeHandler
  have hbase : ∀ s0 : ScriptStore,
      { message := jsTrim ("Executing: " ++ env.pythonVenvPath ++ " "
          ++ joinSpace (redactArgs (buildArgs env.scriptPath o))), type := "setup" }
        ∈ (s0.addToLog ("Executing: " ++ env.pythonVenvPath ++ " "
            ++ joinSpace (redactArgs (buildArgs env.scriptPath o))) "setup").log := by
    intro s0
    rw [addToLog_log]
    exact List.mem_append_right _ (by simp)
  by_cases hs : env.streamsOk = true
  · simp only [hs, Bool.not_true, Bool.false_eq_true, if_false]
    apply mem_setRunning_false
    by_cases hx : env.scriptRun.exitCode = some 0 <;>
      · simp only [hx, if_true, if_false]
        apply mem_addToLog
        apply foldl_log_mem scriptDataStep scriptDataStep_log_mem
        exact hbase _
  · simp only [Bool.not_eq_true] at hs
    simp only [hs, Bool.not_false, if_true]
    exact hbase _

/-- C8 counterexample: with a remote host value equal to the literal
string `--remote-password`, the `indexOf`-based redaction replaces the
wrong element and the `Executing: ...` record logs the real password
(`secret`) verbatim. -/
theorem redaction_leak_counterexample :
    leakOpts.remotePassword = "secret" ∧
    (∃ e ∈ (runPipeline initialStore leakOpts quietEnv).state.log,
      jsIncludes e.message "Executing:" = true ∧
      jsIncludes e.message "secret" = true) := by
  decide

/-- C8 amended: provided no other supplied argument value is the literal
string `--remote-password`, the logged command line is exactly the spawn
command line with the password replaced by `****`, while the spawned
process itself receives the real password; the redacted line is what the
`Executing: ...` record carries. -/
theorem password_redaction (o : StartOptions) (env : PipelineEnv)
    (hz : o.useRemoteZip = true) (hzu : o.remoteZipUrl = "")
    (hpw : o.remotePassword ≠ "")
    (hh : o.remoteHost ≠ "--remote-password")
    (hu : o.remoteUser ≠ "--remote-password")
    (hsp : env.scriptPath ≠ "--remote-password") :
    redactArgs (buildArgs env.scriptPath o) =
      buildArgs env.scriptPath { o with remotePassword := "****" } ∧
    (∀ s : ScriptStore, s.isRunning = false →
      (env.venvExists = true ∨
        (env.statErrENOENT = true ∧ env.venvRun.exitCode = some 0)) →
      env.pipRun.exitCode = some 0 →
      (env.pythonVenvPath, buildArgs env.scriptPath o) ∈ (runPipeline s o env).spawns ∧
      { message := jsTrim ("Executing: " ++ env.pythonVenvPath ++ " "
          ++ joinSpace (redactArgs (buildArgs env.scriptPath o))), type := "setup" }
        ∈ (runPipeline s o env).state.log) := by
  have hL : "--remote-password" ∉
      (["-u", env.scriptPath, "--create-remote-zip"]
        ++ (if o.remoteHost ≠ "" then ["--remote-host", o.remoteHost] else [])
        ++ (if o.remoteUser ≠ "" then ["--remote-user", o.remoteUser] else [])) := by
    intro hmem
    rcases List.mem_append.1 hmem with hmem | hmem
    · rcases List.mem_append.1 hmem with hmem | hmem
      · simp only [List.mem_cons, List.not_mem_nil, or_false] at hmem
        rcases hmem with h | h | h
        · exact absurd h (by decide)
        · exact hsp h.symm
        · exact absurd h (by decide)
      · by_cases hhe : o.remoteHost = ""
        · simp [hhe] at hmem
        · simp only [hhe, ne_eq, not_false_iff, if_true, List.mem_cons,
            List.not_mem_nil, or_false] at hmem
          rcases hmem with h | h
          · exact absurd h (by decide)
          · exact hh h.symm
    · by_cases hue : o.remoteUser = ""
      · simp [hue] at hmem
      · simp only [hue, ne_eq, not_false_iff, if_true, List.mem_cons,
          List.not_mem_nil, or_false] at hmem
        rcases hmem with h | h
        · exact absurd h (by decide)
        · exact hu h.symm
  have hred : redactArgs (buildArgs env.scriptPath o) =
      buildArgs env.scriptPath { o with remotePassword := "****" } := by
    rw [buildArgs_remote env.scriptPath o hz hzu hpw]
    rw [buildArgs_remote env.scriptPath { o with remotePassword := "****" }
      hz hzu (by show ("****" : String) ≠ ""; decide)]
    exact redactArgs_append _ _ _ hL
  refine ⟨hred, ?_⟩
  intro s hrun hok hpip
  rw [runPipeline_eq_of_idle s o env hrun]
  have h1 := step1_thrown_none env ((s.clearLog).setRunning true) hok
  have h2 := step2_thrown_none env (step1 env ((s.clearLog).setRunning true)).state hpip
  cases h3 : (step3 o env (step2 env
      (step1 env ((s.clearLog).setRunning true)).state).state).thrown with
  | some m =>
      rw [pipelineSteps_eq_catch3 o env _ m h1 h2 h3]
      constructor
      · simp only []
        refine List.mem_append_right _ ?_
        rw [step3_spawns]
        simp
      · exact mem_catchStep_mono _ _ _ (step3_exec_mem o env _)
  | none =>
      rw [pipelineSteps_eq_done o env _ h1 h2 h3]
      constructor
      · simp only []
        refine List.mem_append_right _ ?_
        rw [step3_spawns]
        simp
      · exact step3_exec_mem o env _

/-- C8 amended witness: ordinary remote options at a concrete
environment. -/
theorem password_redaction_witness :
    redactArgs (buildArgs quietEnv.scriptPath remoteOpts) =
      buildArgs quietEnv.scriptPath { remoteOpts with remotePassword := "****" } ∧
    (quietEnv.pythonVenvPath, buildArgs quietEnv.scriptPath remoteOpts) ∈
      (runPipeline initialStore remoteOpts quietEnv).spawns ∧
    { message := jsTrim ("Executing: " ++ quietEnv.pythonVenvPath ++ " "
        ++ joinSpace (redactArgs (buildArgs quietEnv.scriptPath remoteOpts))),
      type := "setup" }
      ∈ (runPipeline initialStore remoteOpts quietEnv).state.log :=
  ⟨(password_redaction remoteOpts quietEnv (by decide) (by decide) (by decide)
      (by decide) (by decide) (by decide)).1,
   ((password_redaction remoteOpts quietEnv (by decide) (by decide) (by decide)
      (by decide) (by decide) (by decide)).2 initialStore (by decide)
      (Or.inl (by decide)) (by decide)).1,
   ((password_redaction remoteOpts quietEnv (by decide) (by decide) (by decide)
      (by decide) (by decide) (by decide)).2 initialStore (by decide)
      (Or.inl (by decide)) (by decide)).2⟩
